import Mathlib

/-!
Verification development for the IBC repository (`src/main.py`), a pygame
program that runs four drag-and-drop problem-solving tasks and records
per-task outcomes.

The Python source is shallowly embedded below:
* `Rect` mirrors `pygame.Rect` with the integer semantics of pygame's
  `rect.c` (`collidepoint` excludes right/bottom edges, `colliderect` is a
  strict-overlap test, `contains` is full containment, attribute setters
  such as `center`/`midbottom` use integer halving of the nonnegative
  width/height).
* `DraggableItem` mirrors the `DraggableItem` sprite class.
* Namespace `CandleBox` mirrors `run_candle_box_task`: its per-frame loop is
  `processFrame` (drain events, update the dragged item with the frame's
  mouse position, then the timeout check), iterated by `runFrames`.
  Wall-clock time is modelled in integer milliseconds (`pygame.time.get_ticks`
  returns ms; the Python code divides by 1000.0 into float seconds only for
  display and log text, which does not affect any branch).
* Namespace `HangerWire` mirrors the drop-resolution step (the
  `MOUSEBUTTONUP` handler) of `run_hanger_wire_task`.  That handler can
  raise: when the dragged item is the wire and `ring_is_attached` holds but
  the attach rule fails, the Python evaluates
  `gap_area_rect.contains(currently_dragged.rect.center)` and
  `pygame.Rect.contains` requires a rect-style argument, so a bare 2-tuple
  point raises `TypeError`; the embedding therefore returns `Except`.
* `task_condition` mirrors the condition assignment in `main`.
-/

namespace IBC

/-- Integer rectangle, mirroring `pygame.Rect` (x, y = top-left corner). -/
structure Rect where
  x : Int
  y : Int
  w : Int
  h : Int
deriving Repr, DecidableEq

def Rect.right (r : Rect) : Int := r.x + r.w

def Rect.bottom (r : Rect) : Int := r.y + r.h

def Rect.top (r : Rect) : Int := r.y

def Rect.centerx (r : Rect) : Int := r.x + r.w / 2

def Rect.centery (r : Rect) : Int := r.y + r.h / 2

def Rect.center (r : Rect) : Int × Int := (r.centerx, r.centery)

def Rect.topleft (r : Rect) : Int × Int := (r.x, r.y)

/-- `pygame.Rect.collidepoint`: a point on the right or bottom edge is not
inside the rectangle. -/
def Rect.collidepoint (r : Rect) (p : Int × Int) : Bool :=
  r.x ≤ p.1 && p.1 < r.x + r.w && r.y ≤ p.2 && p.2 < r.y + r.h

/-- `pygame.Rect.colliderect`: strict overlap test of `rect.c`. -/
def Rect.colliderect (a b : Rect) : Bool :=
  a.x < b.x + b.w && a.y < b.y + b.h && a.x + a.w > b.x && a.y + a.h > b.y

/-- `pygame.Rect.contains`: the argument lies completely inside `a`. -/
def Rect.contains (a b : Rect) : Bool :=
  a.x ≤ b.x && a.y ≤ b.y && a.x + a.w ≥ b.x + b.w && a.y + a.h ≥ b.y + b.h
    && a.x + a.w > b.x && a.y + a.h > b.y

/-- Assignment `rect.center = c` (pygame moves the rect, keeping its size). -/
def Rect.setCenter (r : Rect) (c : Int × Int) : Rect :=
  ⟨c.1 - r.w / 2, c.2 - r.h / 2, r.w, r.h⟩

/-- Assignment `rect.midbottom = c`. -/
def Rect.setMidbottom (r : Rect) (c : Int × Int) : Rect :=
  ⟨c.1 - r.w / 2, c.2 - r.h, r.w, r.h⟩

/-- Assignment `rect.centerx = v`. -/
def Rect.setCenterx (r : Rect) (v : Int) : Rect :=
  { r with x := v - r.w / 2 }

/-- Assignment `rect.bottom = v`. -/
def Rect.setBottom (r : Rect) (v : Int) : Rect :=
  { r with y := v - r.h }

/-- Assignment `rect.topleft = p`. -/
def Rect.setTopleft (r : Rect) (p : Int × Int) : Rect :=
  { r with x := p.1, y := p.2 }

-- Shared layout constants of `main.py`.

def SCREEN_WIDTH : Int := 1000

def SCREEN_HEIGHT : Int := 700

def NUM_CONDITIONS : Nat := 2

def INVENTORY_RECT_GLOBAL : Rect := ⟨0, SCREEN_HEIGHT - 150, SCREEN_WIDTH, 150⟩

def WORKSPACE_RECT_GLOBAL : Rect := ⟨0, 0, SCREEN_WIDTH, SCREEN_HEIGHT - 150⟩

/-- Rendering of an `(x, y)` pair into log text (Python prints the tuple). -/
def p2s (p : Int × Int) : String :=
  "(" ++ toString p.1 ++ ", " ++ toString p.2 ++ ")"

/-- One log line: the Python prepends the elapsed time; here the elapsed
time is carried in integer milliseconds. -/
def logEntry (elapsedMs : Int) (msg : String) : String :=
  toString elapsedMs ++ "ms - " ++ msg

/-- Raw pointer events delivered by `pygame.event.get()`: the embedding keeps
only the `MOUSEBUTTONDOWN` / `MOUSEBUTTONUP` events the task loops react to. -/
inductive PEvent where
  | down (button : Int) (pos : Int × Int)
  | up (button : Int) (pos : Int × Int)
deriving Repr, DecidableEq

/-- The `DraggableItem` sprite class of `main.py`.  `is_attached` models
`is_attached_to` being non-`None` (the back-reference target is determined
by the task context and never read through the field). -/
structure DraggableItem where
  image_filename : String
  size : Int × Int
  item_type : String
  is_placed : Bool
  is_transformed : Bool
  is_attached : Bool
  state : Int
  rect : Rect
  initial_pos : Int × Int
  current_pos : Int × Int
  dragging : Bool
  offset : Int × Int
deriving Repr, DecidableEq

/-- `DraggableItem.__init__`. -/
def mkItem (fn : String) (size : Int × Int) (pos : Int × Int) (ty : String) :
    DraggableItem :=
  { image_filename := fn
    size := size
    item_type := ty
    is_placed := false
    is_transformed := false
    is_attached := false
    state := 0
    rect := ⟨pos.1, pos.2, size.1, size.2⟩
    initial_pos := pos
    current_pos := pos
    dragging := false
    offset := (0, 0) }

/-- `DraggableItem.handle_event`: returns the mutated item and the boolean
the Python method returns. -/
def DraggableItem.handle_event (it : DraggableItem) (e : PEvent) :
    DraggableItem × Bool :=
  match e with
  | .down b pos =>
      if b = 1 && it.rect.collidepoint pos then
        ({ it with
            dragging := true
            offset := (it.rect.x - pos.1, it.rect.y - pos.2) }, true)
      else (it, false)
  | .up b _ =>
      if b = 1 && it.dragging then ({ it with dragging := false }, true)
      else (it, false)

/-- `DraggableItem.update`: follow the mouse while dragging. -/
def DraggableItem.update (it : DraggableItem) (mouse : Int × Int) :
    DraggableItem :=
  if it.dragging then
    let r := { it.rect with x := mouse.1 + it.offset.1, y := mouse.2 + it.offset.2 }
    { it with rect := r, current_pos := r.topleft }
  else it

/-- `DraggableItem.reset_position`. -/
def DraggableItem.reset_position (it : DraggableItem) : DraggableItem :=
  { it with
      rect := it.rect.setTopleft it.initial_pos
      current_pos := it.initial_pos
      is_placed := false
      state := 0 }

/-- `DraggableItem.change_visual`: the freshly loaded image is scaled to
`newSize`, and `self.rect = self.image.get_rect(center=old_center)`. -/
def DraggableItem.change_visual (it : DraggableItem) (fn : String)
    (newSize : Int × Int) (newType : Option String) : DraggableItem :=
  let ty := match newType with
    | some t => t
    | none => it.item_type
  let newRect := (Rect.mk 0 0 newSize.1 newSize.2).setCenter it.rect.center
  { it with
      image_filename := fn
      size := newSize
      item_type := ty
      rect := newRect }

/-- Condition assignment in `main`:
`task_condition = (participant_id_numeric + task_index) % NUM_CONDITIONS`. -/
def task_condition (participant_id_numeric : Nat) (task_index : Nat) : Nat :=
  (participant_id_numeric + task_index) % NUM_CONDITIONS

namespace CandleBox

/-! Embedding of `run_candle_box_task`.  The three objects live in named
fields; the Python lists `draggables` (hit-test order) and the sprite group
`sprites` (draw order, last drawn on top) are lists of `Kind` referencing
them.  `kill()` on the tacks removes them from the sprite group, and
`draggables.remove` from the hit-test list; the record itself stays (the
Python object also survives while `currently_dragged` references it). -/

def TIMEOUT_SECONDS : Int := 180

def wall_area_rect : Rect :=
  ⟨SCREEN_WIDTH / 2 - 150, 50, 300, WORKSPACE_RECT_GLOBAL.h - 100⟩

def box_size : Int × Int := (80, 80)

def candle_size : Int × Int := (30, 100)

def tacks_size : Int × Int := (40, 40)

def inv_y : Int := INVENTORY_RECT_GLOBAL.centery - box_size.2 / 2

def item_spacing : Int := 150

/-- `item_spacing * 1.5` — the Python value 225.0 is an exact float, and the
rect constructor truncates it back to the integer 225. -/
def item_spacing_x15 : Int := item_spacing * 3 / 2

def candle_pos : Int × Int := (INVENTORY_RECT_GLOBAL.centerx - item_spacing_x15, inv_y)

def box_pos : Int × Int := (INVENTORY_RECT_GLOBAL.centerx - box_size.1 / 2, inv_y)

/-- Tacks start at the right of the inventory; under condition 1 (`a.p.`)
they are re-positioned onto the box (the box visually contains them). -/
def tacks_pos (c : Nat) : Int × Int :=
  if c = 1 then
    (box_pos.1 + box_size.1 / 2 - tacks_size.1 / 2,
     box_pos.2 + box_size.2 / 2 - tacks_size.2 / 2)
  else
    (INVENTORY_RECT_GLOBAL.centerx + item_spacing_x15 - tacks_size.1,
     inv_y + box_size.2 / 2 - tacks_size.2 / 2)

/-- Under condition 1 the box is shown already holding tacks (the source
falls back to `box.png` when the asset file is absent; the file name never
influences control flow). -/
def box_image_file (c : Nat) : String :=
  if c = 1 then "box_with_tacks.png" else "box.png"

inductive Kind where
  | candle
  | box
  | tacks
deriving Repr, DecidableEq

/-- The mutable state of one run of `run_candle_box_task`. -/
structure TaskState where
  candle : DraggableItem
  box : DraggableItem
  tacks : DraggableItem
  draggables : List Kind
  sprites : List Kind
  currently_dragged : Option Kind
  action_log : List String
  action_count : Nat
  incorrect_drops : Nat
  box_on_wall_flag : Bool
  box_tacked_flag : Bool
  outcome : String
  running : Bool
deriving Repr, DecidableEq

def TaskState.get (s : TaskState) : Kind → DraggableItem
  | .candle => s.candle
  | .box => s.box
  | .tacks => s.tacks

def TaskState.set (s : TaskState) (k : Kind) (it : DraggableItem) : TaskState :=
  match k with
  | .candle => { s with candle := it }
  | .box => { s with box := it }
  | .tacks => { s with tacks := it }

def initState (c : Nat) : TaskState :=
  { candle := mkItem "candle.png" candle_size candle_pos "candle"
    box := mkItem (box_image_file c) box_size box_pos "box"
    tacks := mkItem "tacks.png" tacks_size (tacks_pos c) "tacks"
    draggables := [.candle, .box, .tacks]
    sprites := [.candle, .box, .tacks]
    currently_dragged := none
    action_log := []
    action_count := 0
    incorrect_drops := 0
    box_on_wall_flag := false
    box_tacked_flag := false
    outcome := "Timeout"
    running := true }

/-- `sprites.remove(item); sprites.add(item)`: re-insertion moves the sprite
to the end of the group's draw order (drawn last, on top). -/
def promote (l : List Kind) (k : Kind) : List Kind := l.erase k ++ [k]

/-- The scan `for item in reversed(draggables): if item.handle_event(event):
... break` — the first item (in reversed hit-test order) whose
`handle_event` returns true. -/
def findHit (s : TaskState) (e : PEvent) : Option Kind :=
  s.draggables.reverse.find? fun k => ((s.get k).handle_event e).2

/-- The `MOUSEBUTTONDOWN` branch of the candle-box event loop. -/
def processDown (s : TaskState) (elapsedMs : Int) (e : PEvent) : TaskState :=
  match findHit s e with
  | none => s
  | some k =>
      let it := ((s.get k).handle_event e).1
      let s1 := s.set k it
      { s1 with
          currently_dragged := some k
          action_log := s1.action_log ++
            [logEntry elapsedMs ("DRAG_START(" ++ it.item_type ++ ")")]
          action_count := s1.action_count + 1
          sprites := promote s1.sprites k }

/-- The `MOUSEBUTTONUP` branch: drag-end logging, the three drop rules in
declaration order, the invalid-drop policy, then drag finalisation. -/
def processUp (s : TaskState) (elapsedMs : Int) (e : PEvent) : TaskState :=
  match s.currently_dragged with
  | none => s
  | some k =>
      let it := s.get k
      let s1 := { s with
        action_log := s.action_log ++
          [logEntry elapsedMs
            ("DRAG_END(" ++ it.item_type ++ ") at " ++ p2s it.rect.center)]
        action_count := s.action_count + 1 }
      let next :=
        -- 1. Box onto Wall
        if it.item_type == "box" && it.rect.colliderect wall_area_rect then
          let it1 := { it with
            rect := (it.rect.setCenterx wall_area_rect.centerx).setBottom
                      (wall_area_rect.bottom - 20)
            is_placed := true }
          let s2 := s1.set k it1
          ({ s2 with
              box_on_wall_flag := true
              action_log := s2.action_log ++ [logEntry elapsedMs "PLACE(Box on Wall)"] },
           true)
        -- 2. Tacks onto Box (on Wall)
        else if it.item_type == "tacks" && s1.box.is_placed
            && it.rect.colliderect s1.box.rect then
          ({ s1 with
              box := { s1.box with state := 1 }
              box_tacked_flag := true
              sprites := s1.sprites.erase k
              draggables := s1.draggables.erase k
              action_log := s1.action_log ++ [logEntry elapsedMs "ACTION(Tack Box)"] },
           true)
        -- 3. Candle onto Tacked Box
        else if it.item_type == "candle" && s1.box.state == (1 : Int)
            && it.rect.colliderect s1.box.rect then
          let it1 := { it with
            rect := it.rect.setMidbottom (s1.box.rect.centerx, s1.box.rect.top)
            is_placed := true }
          let s2 := s1.set k it1
          ({ s2 with
              action_log := s2.action_log ++ [logEntry elapsedMs "PLACE(Candle on Box)"]
              outcome := "Solved"
              running := false },
           true)
        else (s1, false)
      let s3 := next.1
      let s4 :=
        if next.2 then s3
        else
          let it2 := s3.get k
          let s3a :=
            if !(INVENTORY_RECT_GLOBAL.contains it2.rect) then
              { s3 with incorrect_drops := s3.incorrect_drops + 1 }
            else s3
          -- Allow box to stay on wall even if not tacked yet
          if !(it2.item_type == "box" && it2.is_placed) then
            s3a.set k it2.reset_position
          else s3a
      let s5 := s4.set k ((s4.get k).handle_event e).1
      { s5 with currently_dragged := none }

/-- One event of the drained batch: the loop body reacts only to
button-1 mouse events. -/
def processEvent (s : TaskState) (elapsedMs : Int) (e : PEvent) : TaskState :=
  match e with
  | .down b _ => if b = 1 then processDown s elapsedMs e else s
  | .up b _ => if b = 1 then processUp s elapsedMs e else s

/-- One iteration of the `while running` loop: the per-frame input data. -/
structure Frame where
  events : List PEvent
  mouse_pos : Int × Int
  ticksMs : Int
deriving Repr, DecidableEq

/-- One frame: drain the event batch, move the dragged item to the frame's
mouse position, then the countdown check (`remaining <= 0 and running`). -/
def processFrame (s : TaskState) (f : Frame) : TaskState :=
  let elapsedMs := f.ticksMs
  let s1 := f.events.foldl (fun acc e => processEvent acc elapsedMs e) s
  let s2 :=
    match s1.currently_dragged with
    | some k => s1.set k ((s1.get k).update f.mouse_pos)
    | none => s1
  if max 0 (TIMEOUT_SECONDS * 1000 - elapsedMs) ≤ 0 && s2.running then
    { s2 with outcome := "Timeout", running := false }
  else s2

/-- The `while running` loop over a stream of frames. -/
def runFrames (s : TaskState) : List Frame → TaskState
  | [] => s
  | f :: fs => if s.running then runFrames (processFrame s f) fs else s

def runTask (c : Nat) (fs : List Frame) : TaskState :=
  runFrames (initState c) fs

/-- The record returned at the bottom of `run_candle_box_task` (wall-clock
start/end timestamps left out: they never feed back into task behaviour). -/
structure TaskRunResult where
  Outcome : String
  TotalActions : Nat
  IncorrectDrops : Nat
  BoxOnWall : Bool
  BoxTacked : Bool
  ActionLog : String
deriving Repr, DecidableEq

def finalize (s : TaskState) : TaskRunResult :=
  { Outcome := s.outcome
    TotalActions := s.action_count
    IncorrectDrops := s.incorrect_drops
    BoxOnWall := s.box_on_wall_flag
    BoxTacked := s.box_tacked_flag
    ActionLog := String.intercalate " | " s.action_log }

end CandleBox

namespace HangerWire

/-! Embedding of the drop-resolution step (the `MOUSEBUTTONUP` handler) of
`run_hanger_wire_task`.  The hanger object is transformed into the wire by
rule 1 (`change_visual` with new kind `wire`); `wire_sprite : Bool` models
the Python variable `wire_sprite` being bound (it always references the
hanger object).  The retrieve rule's guard evaluates
`gap_area_rect.contains(currently_dragged.rect.center)`, and
`pygame.Rect.contains` requires a rect-style argument — a bare `(x, y)`
tuple makes it raise `TypeError`, so the step is `Except`-valued. -/

def TIMEOUT_SECONDS : Int := 240

def gap_area_rect : Rect :=
  ⟨SCREEN_WIDTH / 2 - 40, SCREEN_HEIGHT / 2 - 100 - 50, 80, 200⟩

def hanger_size : Int × Int := (120, 80)

def wire_size : Int × Int := (10, 100)

def ring_size : Int × Int := (25, 25)

def dist_size : Int × Int := (50, 50)

def ring_pos : Int × Int :=
  (gap_area_rect.centerx - ring_size.1 / 2, gap_area_rect.bottom - ring_size.2 - 10)

def hanger_pos : Int × Int :=
  (INVENTORY_RECT_GLOBAL.centerx - 150, INVENTORY_RECT_GLOBAL.centery - hanger_size.2 / 2)

/-- Under condition 1 the hanger is shown with a shirt on it (the source
falls back to `hanger.png` when the asset is absent; the file name never
influences control flow). -/
def hanger_image_file (c : Nat) : String :=
  if c = 1 then "hanger_with_shirt.png" else "hanger.png"

/-- The two members of the `draggables` list; the ring is a sprite but is
never draggable in this task. -/
inductive HKind where
  | hanger
  | cloth
deriving Repr, DecidableEq

/-- The mutable state of one run of `run_hanger_wire_task` (the fields the
drop-resolution step reads or writes). -/
structure HState where
  hangerItem : DraggableItem
  cloth : DraggableItem
  ring : DraggableItem
  draggables : List HKind
  wire_sprite : Bool
  ring_is_attached : Bool
  currently_dragged : Option HKind
  action_log : List String
  action_count : Nat
  incorrect_drops : Nat
  hanger_transformed_flag : Bool
  ring_retrieved_flag : Bool
  outcome : String
  running : Bool
deriving Repr, DecidableEq

def HState.get (s : HState) : HKind → DraggableItem
  | .hanger => s.hangerItem
  | .cloth => s.cloth

def HState.set (s : HState) (k : HKind) (it : DraggableItem) : HState :=
  match k with
  | .hanger => { s with hangerItem := it }
  | .cloth => { s with cloth := it }

def initState (c : Nat) : HState :=
  { hangerItem := mkItem (hanger_image_file c) hanger_size hanger_pos "hanger"
    cloth := mkItem "distractor_cloth.png" dist_size
      (hanger_pos.1 + 180, hanger_pos.2 + 15) "cloth"
    ring := mkItem "ring.png" ring_size ring_pos "ring"
    draggables := [.hanger, .cloth]
    wire_sprite := false
    ring_is_attached := false
    currently_dragged := none
    action_log := []
    action_count := 0
    incorrect_drops := 0
    hanger_transformed_flag := false
    ring_retrieved_flag := false
    outcome := "Timeout"
    running := true }

/-- Drag finalisation at the end of the `MOUSEBUTTONUP` handler:
`currently_dragged.handle_event(event); currently_dragged = None`. -/
def finishDrag (s : HState) (k : HKind) (e : PEvent) : HState :=
  { s.set k ((s.get k).handle_event e).1 with currently_dragged := none }

/-- The `MOUSEBUTTONUP` branch of the hanger-wire event loop: drag-end
logging, the three drop rules in declaration order, the invalid-drop
policy, then drag finalisation.  The retrieve rule (rule 3) raises
`TypeError` when reached, because its Python guard calls `Rect.contains`
on a bare point. -/
def processUp (s : HState) (elapsedMs : Int) (e : PEvent) :
    Except String HState :=
  match s.currently_dragged with
  | none => .ok s
  | some k =>
      let it := s.get k
      let s1 := { s with
        action_log := s.action_log ++
          [logEntry elapsedMs
            ("DRAG_END(" ++ it.item_type ++ ") at " ++ p2s it.rect.center)]
        action_count := s.action_count + 1 }
      let original_item_type := it.item_type
      -- rule 1: hanger dropped fully inside the workspace transforms to wire
      if it.item_type == "hanger" && WORKSPACE_RECT_GLOBAL.contains it.rect then
        let it1 := { it.change_visual "wire_piece.png" wire_size (some "wire") with
          is_transformed := true }
        let s2 := s1.set k it1
        .ok (finishDrag
          { s2 with
              hanger_transformed_flag := true
              wire_sprite := true
              draggables := s2.draggables.erase HKind.hanger
              action_log := s2.action_log ++
                [logEntry elapsedMs "TRANSFORM(Hanger to Wire)"] }
          k e)
      -- rule 2: wire touching the ring while the ring sits inside the gap
      else if it.item_type == "wire" && it.rect.colliderect s1.ring.rect
          && gap_area_rect.contains s1.ring.rect then
        let s2 := s1.set k { it with is_attached := true }
        .ok (finishDrag
          { s2 with
              ring := { s2.ring with is_attached := true }
              ring_is_attached := true
              action_log := s2.action_log ++
                [logEntry elapsedMs "ATTACH(Wire to Ring)"] }
          k e)
      -- rule 3 guard: `gap_area_rect.contains(currently_dragged.rect.center)`
      -- with a bare point argument — pygame raises TypeError here
      else if it.item_type == "wire" && s1.ring_is_attached then
        .error "TypeError: Argument must be rect style object"
      -- unsuccessful drop policy
      else
        let s2 :=
          if original_item_type != "wire"
              && !(INVENTORY_RECT_GLOBAL.contains it.rect) then
            { s1 with incorrect_drops := s1.incorrect_drops + 1 }.set
              k it.reset_position
          else if original_item_type == "wire"
              && !(gap_area_rect.contains it.rect) then
            { s1 with
                action_log := s1.action_log ++
                  [logEntry elapsedMs
                    ("PLACE(Wire at " ++ p2s it.rect.center ++ ")")] }
          else if !(INVENTORY_RECT_GLOBAL.contains it.rect) then
            { s1 with incorrect_drops := s1.incorrect_drops + 1 }.set
              k it.reset_position
          else s1
        .ok (finishDrag s2 k e)

end HangerWire

namespace CandleBox

/-! Concrete event traces used to settle the claims.  Geometry at condition 0:
candle starts at `(275, 585, 30, 100)`, box at `(460, 585, 80, 80)`, tacks at
`(685, 605, 40, 40)`; at condition 1 the tacks instead start at
`(480, 605, 40, 40)`, entirely inside the box's footprint. -/

/-- Two button-1 pointer-downs in one drained batch: the first over the
candle only, the second over the box only. -/
def c1frames : List Frame :=
  [⟨[.down 1 (280, 590), .down 1 (465, 590)], (280, 590), 1000⟩]

/-- Condition 1: grab the box at a point outside the tacks, release it in
place (an invalid drop that resets it), then press over `(500, 625)`, a
point inside both the tacks and the box. -/
def c2frames : List Frame :=
  [⟨[.down 1 (465, 590)], (465, 590), 1000⟩,
   ⟨[.up 1 (465, 590)], (465, 590), 2000⟩,
   ⟨[.down 1 (500, 625)], (500, 625), 3000⟩]

/-- Grab the candle and drag it so that its rectangle straddles the top
edge of the inventory region, then release. -/
def c3frames : List Frame :=
  [⟨[.down 1 (280, 590)], (305, 505), 1000⟩,
   ⟨[.up 1 (305, 505)], (305, 505), 2000⟩]

/-- A full solving run at condition 0: box to the wall, tacks onto the box,
candle picked up and moved over the tacked box. -/
def c4base : List Frame :=
  [⟨[.down 1 (465, 590)], (505, 425), 1000⟩,
   ⟨[.up 1 (465, 590)], (505, 425), 2000⟩,
   ⟨[.down 1 (690, 610)], (505, 425), 3000⟩,
   ⟨[.up 1 (690, 610)], (505, 425), 4000⟩,
   ⟨[.down 1 (280, 590)], (505, 415), 5000⟩]

/-- The final frame: the solving candle drop, followed by `extra` events
that sit in the same drained event batch. -/
def c4solveFrame (extra : List PEvent) : Frame :=
  ⟨[.up 1 (505, 415)] ++ extra, (505, 415), 6000⟩

/-- The pointer-down points of the Scenario-A trace: the box is always
grabbed at `(465, 590)`, the candle at `(280, 590)`, and the tacks at a
point 5 px right of and below their condition-dependent top-left corner. -/
def c5tacksPoint (c : Nat) : Int × Int :=
  if c = 1 then (485, 610) else (690, 610)

/-- The Scenario-A trace: three grab/drop phases whose drop positions are
given by the mouse positions `m1` (box), `m2` (tacks), `m3` (candle). -/
def c5frames (c : Nat) (m1 m2 m3 : Int × Int) : List Frame :=
  [⟨[.down 1 (465, 590)], m1, 1000⟩,
   ⟨[.up 1 (465, 590)], m1, 2000⟩,
   ⟨[.down 1 (c5tacksPoint c)], m2, 3000⟩,
   ⟨[.up 1 (c5tacksPoint c)], m2, 4000⟩,
   ⟨[.down 1 (280, 590)], m3, 5000⟩,
   ⟨[.up 1 (280, 590)], m3, 6000⟩]

/-! The intermediate states of the Scenario-A trace, parameterised by the
condition and the three drop positions (each state is the exact value
produced by the corresponding frame of `c5frames`). -/

def c5S1 (c : Nat) (m1 : Int × Int) : TaskState :=
  { candle := mkItem "candle.png" candle_size candle_pos "candle"
    box := { mkItem (box_image_file c) box_size box_pos "box" with
               rect := ⟨m1.1 - 5, m1.2 - 5, 80, 80⟩
               current_pos := (m1.1 - 5, m1.2 - 5)
               dragging := true
               offset := (-5, -5) }
    tacks := mkItem "tacks.png" tacks_size (tacks_pos c) "tacks"
    draggables := [.candle, .box, .tacks]
    sprites := [.candle, .tacks, .box]
    currently_dragged := some .box
    action_log := [logEntry 1000 "DRAG_START(box)"]
    action_count := 1
    incorrect_drops := 0
    box_on_wall_flag := false
    box_tacked_flag := false
    outcome := "Timeout"
    running := true }

def c5S2 (c : Nat) (m1 : Int × Int) : TaskState :=
  { candle := mkItem "candle.png" candle_size candle_pos "candle"
    box := { mkItem (box_image_file c) box_size box_pos "box" with
               rect := ⟨460, 400, 80, 80⟩
               current_pos := (m1.1 - 5, m1.2 - 5)
               dragging := false
               offset := (-5, -5)
               is_placed := true }
    tacks := mkItem "tacks.png" tacks_size (tacks_pos c) "tacks"
    draggables := [.candle, .box, .tacks]
    sprites := [.candle, .tacks, .box]
    currently_dragged := none
    action_log := [logEntry 1000 "DRAG_START(box)",
      logEntry 2000 ("DRAG_END(box) at "
        ++ p2s (Rect.mk (m1.1 - 5) (m1.2 - 5) 80 80).center),
      logEntry 2000 "PLACE(Box on Wall)"]
    action_count := 2
    incorrect_drops := 0
    box_on_wall_flag := true
    box_tacked_flag := false
    outcome := "Timeout"
    running := true }

def c5S3 (c : Nat) (m1 m2 : Int × Int) : TaskState :=
  { c5S2 c m1 with
    tacks := { mkItem "tacks.png" tacks_size (tacks_pos c) "tacks" with
                 rect := ⟨m2.1 - 5, m2.2 - 5, 40, 40⟩
                 current_pos := (m2.1 - 5, m2.2 - 5)
                 dragging := true
                 offset := (-5, -5) }
    sprites := [.candle, .box, .tacks]
    currently_dragged := some .tacks
    action_log := [logEntry 1000 "DRAG_START(box)",
      logEntry 2000 ("DRAG_END(box) at "
        ++ p2s (Rect.mk (m1.1 - 5) (m1.2 - 5) 80 80).center),
      logEntry 2000 "PLACE(Box on Wall)",
      logEntry 3000 "DRAG_START(tacks)"]
    action_count := 3 }

def c5S4 (c : Nat) (m1 m2 : Int × Int) : TaskState :=
  { c5S2 c m1 with
    box := { mkItem (box_image_file c) box_size box_pos "box" with
               rect := ⟨460, 400, 80, 80⟩
               current_pos := (m1.1 - 5, m1.2 - 5)
               dragging := false
               offset := (-5, -5)
               is_placed := true
               state := 1 }
    tacks := { mkItem "tacks.png" tacks_size (tacks_pos c) "tacks" with
                 rect := ⟨m2.1 - 5, m2.2 - 5, 40, 40⟩
                 current_pos := (m2.1 - 5, m2.2 - 5)
                 dragging := false
                 offset := (-5, -5) }
    draggables := [.candle, .box]
    sprites := [.candle, .box]
    currently_dragged := none
    action_log := [logEntry 1000 "DRAG_START(box)",
      logEntry 2000 ("DRAG_END(box) at "
        ++ p2s (Rect.mk (m1.1 - 5) (m1.2 - 5) 80 80).center),
      logEntry 2000 "PLACE(Box on Wall)",
      logEntry 3000 "DRAG_START(tacks)",
      logEntry 4000 ("DRAG_END(tacks) at "
        ++ p2s (Rect.mk (m2.1 - 5) (m2.2 - 5) 40 40).center),
      logEntry 4000 "ACTION(Tack Box)"]
    action_count := 4
    box_tacked_flag := true }

def c5S5 (c : Nat) (m1 m2 m3 : Int × Int) : TaskState :=
  { c5S4 c m1 m2 with
    candle := { mkItem "candle.png" candle_size candle_pos "candle" with
                  rect := ⟨m3.1 - 5, m3.2 - 5, 30, 100⟩
                  current_pos := (m3.1 - 5, m3.2 - 5)
                  dragging := true
                  offset := (-5, -5) }
    sprites := [.box, .candle]
    currently_dragged := some .candle
    action_log := (c5S4 c m1 m2).action_log
      ++ [logEntry 5000 "DRAG_START(candle)"]
    action_count := 5 }

def c5S6 (c : Nat) (m1 m2 m3 : Int × Int) : TaskState :=
  { c5S4 c m1 m2 with
    candle := { mkItem "candle.png" candle_size candle_pos "candle" with
                  rect := ⟨485, 300, 30, 100⟩
                  current_pos := (m3.1 - 5, m3.2 - 5)
                  dragging := false
                  offset := (-5, -5)
                  is_placed := true }
    sprites := [.box, .candle]
    currently_dragged := none
    action_log := (c5S4 c m1 m2).action_log
      ++ [logEntry 5000 "DRAG_START(candle)",
          logEntry 6000 ("DRAG_END(candle) at "
            ++ p2s (Rect.mk (m3.1 - 5) (m3.2 - 5) 30 100).center),
          logEntry 6000 "PLACE(Candle on Box)"]
    action_count := 6
    outcome := "Solved"
    running := false }

end CandleBox

namespace HangerWire

/-- A state of the hanger-wire task in which the transformed wire (rect
`(100, 100, 10, 100)`, outside both the gap and the inventory) is being
dragged and the ring is unattached, used to instantiate the unsuccessful
wire-drop theorem. -/
def wireDropState : HState :=
  { initState 0 with
      hangerItem :=
        { mkItem "wire_piece.png" wire_size (100, 100) "wire" with
            dragging := true, is_transformed := true }
      draggables := [.cloth]
      wire_sprite := true
      hanger_transformed_flag := true
      currently_dragged := some HKind.hanger }

end HangerWire

section Helpers

namespace CandleBox

theorem set_draggables (s : TaskState) (k : Kind) (it : DraggableItem) :
    (s.set k it).draggables = s.draggables := by cases k <;> rfl

theorem set_sprites (s : TaskState) (k : Kind) (it : DraggableItem) :
    (s.set k it).sprites = s.sprites := by cases k <;> rfl

theorem set_currently_dragged (s : TaskState) (k : Kind) (it : DraggableItem) :
    (s.set k it).currently_dragged = s.currently_dragged := by cases k <;> rfl

theorem set_action_log (s : TaskState) (k : Kind) (it : DraggableItem) :
    (s.set k it).action_log = s.action_log := by cases k <;> rfl

theorem set_action_count (s : TaskState) (k : Kind) (it : DraggableItem) :
    (s.set k it).action_count = s.action_count := by cases k <;> rfl

theorem set_incorrect_drops (s : TaskState) (k : Kind) (it : DraggableItem) :
    (s.set k it).incorrect_drops = s.incorrect_drops := by cases k <;> rfl

theorem set_box_on_wall_flag (s : TaskState) (k : Kind) (it : DraggableItem) :
    (s.set k it).box_on_wall_flag = s.box_on_wall_flag := by cases k <;> rfl

theorem set_box_tacked_flag (s : TaskState) (k : Kind) (it : DraggableItem) :
    (s.set k it).box_tacked_flag = s.box_tacked_flag := by cases k <;> rfl

theorem set_outcome (s : TaskState) (k : Kind) (it : DraggableItem) :
    (s.set k it).outcome = s.outcome := by cases k <;> rfl

theorem set_running (s : TaskState) (k : Kind) (it : DraggableItem) :
    (s.set k it).running = s.running := by cases k <;> rfl

theorem get_set_self (s : TaskState) (k : Kind) (it : DraggableItem) :
    (s.set k it).get k = it := by cases k <;> rfl

theorem get_update_misc (s : TaskState) (k : Kind) (cd : Option Kind)
    (l : List String) (n m : Nat) :
    TaskState.get
      { s with currently_dragged := cd, action_log := l, action_count := n,
               incorrect_drops := m } k
      = s.get k := by
  cases k <;> rfl

theorem runFrames_cons (s : TaskState) (f : Frame) (fs : List Frame)
    (h : s.running = true) :
    runFrames s (f :: fs) = runFrames (processFrame s f) fs := by
  simp [runFrames, h]

theorem c5_step1 (c : Nat) (hc : c = 0 ∨ c = 1) (m1 : Int × Int) :
    processFrame (initState c) ⟨[.down 1 (465, 590)], m1, 1000⟩ = c5S1 c m1 := by
  rcases hc with rfl | rfl <;> rfl

theorem c5_step2 (c : Nat) (hc : c = 0 ∨ c = 1) (m1 : Int × Int)
    (hb : Rect.colliderect ⟨m1.1 - 5, m1.2 - 5, 80, 80⟩ wall_area_rect = true) :
    processFrame (c5S1 c m1) ⟨[.up 1 (465, 590)], m1, 2000⟩ = c5S2 c m1 := by
  rcases hc with rfl | rfl <;>
  · simp only [c5S1, c5S2, processFrame, List.foldl, processEvent, processUp,
      TaskState.get, TaskState.set, hb]
    rfl

theorem c5_step3 (c : Nat) (hc : c = 0 ∨ c = 1) (m1 m2 : Int × Int) :
    processFrame (c5S2 c m1) ⟨[.down 1 (c5tacksPoint c)], m2, 3000⟩
      = c5S3 c m1 m2 := by
  rcases hc with rfl | rfl <;> rfl

theorem c5_step4 (c : Nat) (hc : c = 0 ∨ c = 1) (m1 m2 : Int × Int)
    (ht : Rect.colliderect ⟨m2.1 - 5, m2.2 - 5, 40, 40⟩ ⟨460, 400, 80, 80⟩ = true) :
    processFrame (c5S3 c m1 m2) ⟨[.up 1 (c5tacksPoint c)], m2, 4000⟩
      = c5S4 c m1 m2 := by
  rcases hc with rfl | rfl <;>
  · simp only [c5S2, c5S3, c5S4, processFrame, List.foldl, processEvent, processUp,
      TaskState.get, TaskState.set, ht]
    rfl

theorem c5_step5 (c : Nat) (hc : c = 0 ∨ c = 1) (m1 m2 m3 : Int × Int) :
    processFrame (c5S4 c m1 m2) ⟨[.down 1 (280, 590)], m3, 5000⟩
      = c5S5 c m1 m2 m3 := by
  rcases hc with rfl | rfl <;> rfl

theorem c5_step6 (c : Nat) (hc : c = 0 ∨ c = 1) (m1 m2 m3 : Int × Int)
    (hcan : Rect.colliderect ⟨m3.1 - 5, m3.2 - 5, 30, 100⟩ ⟨460, 400, 80, 80⟩ = true) :
    processFrame (c5S5 c m1 m2 m3) ⟨[.up 1 (280, 590)], m3, 6000⟩
      = c5S6 c m1 m2 m3 := by
  rcases hc with rfl | rfl <;>
  · simp only [c5S2, c5S4, c5S5, c5S6, processFrame, List.foldl, processEvent, processUp,
      TaskState.get, TaskState.set, hcan]
    rfl

end CandleBox

end Helpers

/-- Claim C1: the claim states that a pointer-down arriving while a drag is
already active is ignored and that at most one object ever reports
`isDragging = true`.  Evaluating `run_candle_box_task` on a drained event
batch holding two button-1 downs (the first over the candle, the second
over the box) shows the code instead grants a second grab: afterwards both
the candle and the box report `dragging = true`, the grab search ran (two
`DRAG_START` actions were counted) and the box became the dragged object
while the candle was never released. -/
theorem CandleBox.c1_second_pointer_down_grants_second_grab :
    (runTask 0 c1frames).candle.dragging = true ∧
    (runTask 0 c1frames).box.dragging = true ∧
    (runTask 0 c1frames).currently_dragged = some Kind.box ∧
    (runTask 0 c1frames).action_count = 2 := by
  refine ⟨rfl, rfl, rfl, rfl⟩

/-- Claim C2, counterexample: at condition 1 the tacks start inside the
box's footprint.  After the box is grabbed (and released in place), the box
is the most recently grabbed object and sits on top of the sprite draw
order (`[candle, tacks, box]`), yet a pointer-down at `(500, 625)` — inside
both the box and the tacks — grants the grab to the tacks, because the
hit-test scan uses the unchanged `draggables` list, not the promoted draw
order. -/
theorem CandleBox.c2_promotion_does_not_affect_hit_test :
    (runTask 1 (c2frames.take 2)).sprites = [Kind.candle, Kind.tacks, Kind.box] ∧
    (runTask 1 (c2frames.take 2)).box.rect.collidepoint (500, 625) = true ∧
    (runTask 1 (c2frames.take 2)).tacks.rect.collidepoint (500, 625) = true ∧
    (runTask 1 c2frames).currently_dragged = some Kind.tacks := by
  refine ⟨rfl, rfl, rfl, rfl⟩

/-- Claim C2, amended: on a button-1 pointer-down the dispatcher grants the
grab to the first object in the reversed `draggables` list whose
`handle_event` succeeds; a successful grab re-inserts that object at the
end of the sprite draw order (promoting it visually to the top) but leaves
the hit-test list `draggables` unchanged, so a later pointer-down over
overlapping objects is again resolved by the fixed reversed list order,
not by grab recency. -/
theorem CandleBox.c2_down_scan_and_promotion (s : TaskState) (t : Int)
    (e : PEvent) (k : Kind) (h : findHit s e = some k) :
    (processDown s t e).currently_dragged = some k ∧
    (processDown s t e).draggables = s.draggables ∧
    (processDown s t e).sprites = s.sprites.erase k ++ [k] ∧
    findHit s e
      = s.draggables.reverse.find? (fun j => ((s.get j).handle_event e).2) := by
  refine ⟨?_, ?_, ?_, rfl⟩
  · unfold processDown
    rw [h]
  · unfold processDown
    rw [h]
    dsimp only
    simp only [set_draggables]
  · unfold processDown
    rw [h]
    dsimp only
    simp only [set_sprites, promote]

theorem CandleBox.c2_down_scan_and_promotion_witness :
    (processDown (initState 0) 0 (.down 1 (465, 590))).currently_dragged
        = some Kind.box ∧
    (processDown (initState 0) 0 (.down 1 (465, 590))).draggables
        = (initState 0).draggables ∧
    (processDown (initState 0) 0 (.down 1 (465, 590))).sprites
        = (initState 0).sprites.erase Kind.box ++ [Kind.box] := by
  have h := c2_down_scan_and_promotion (initState 0) 0 (.down 1 (465, 590))
    Kind.box (by decide)
  exact ⟨h.1, h.2.1, h.2.2.1⟩

/-- Claim C3, counterexample: the candle is dropped at `(300, 500, 30, 100)`,
a rectangle that overlaps (intersects) the inventory region
`(0, 550, 1000, 150)` but is not fully contained in it.  The claim says such
a drop is never counted as incorrect; the code increments
`incorrect_drops` to 1 because it tests `inventory_rect.contains`, not
intersection. -/
theorem CandleBox.c3_intersecting_drop_counted_incorrect :
    (runTask 0 (c3frames.take 1)).candle.rect = ⟨300, 500, 30, 100⟩ ∧
    Rect.colliderect ⟨300, 500, 30, 100⟩ INVENTORY_RECT_GLOBAL = true ∧
    INVENTORY_RECT_GLOBAL.contains ⟨300, 500, 30, 100⟩ = false ∧
    (runTask 0 c3frames).incorrect_drops = 1 := by
  refine ⟨rfl, rfl, rfl, rfl⟩

/-- Claim C4, counterexample: on the solving trace the outcome becomes
Solved at the candle drop, yet two further events sitting in the same
drained batch are still processed: the log grows from 9 to 12 entries
(`DRAG_START`, `DRAG_END` and a re-applied `PLACE(Box on Wall)` rule), and
two more actions are counted — so rules are evaluated and log entries
appended after the run became Solved within that frame. -/
theorem CandleBox.c4_events_processed_after_solve :
    (runTask 0 (c4base ++ [c4solveFrame []])).outcome = "Solved" ∧
    (runTask 0 (c4base ++ [c4solveFrame []])).action_log.length = 9 ∧
    (runTask 0 (c4base ++ [c4solveFrame []])).action_count = 6 ∧
    (runTask 0 (c4base
        ++ [c4solveFrame [.down 1 (465, 405), .up 1 (465, 405)]])).outcome
      = "Solved" ∧
    (runTask 0 (c4base
        ++ [c4solveFrame [.down 1 (465, 405), .up 1 (465, 405)]])).action_log.length
      = 12 ∧
    (runTask 0 (c4base
        ++ [c4solveFrame [.down 1 (465, 405), .up 1 (465, 405)]])).action_count
      = 8 ∧
    (runTask 0 (c4base
        ++ [c4solveFrame [.down 1 (465, 405), .up 1 (465, 405)]])).action_log.getLast?
      = some "6000ms - PLACE(Box on Wall)" := by
  refine ⟨rfl, rfl, rfl, rfl, rfl, rfl, rfl⟩

/-- Claim C4, amended: termination holds at frame granularity — once
`running` is false (outcome Solved or Timeout), the `while running` loop
processes no further frames, so no rule evaluation, drag event or log
append happens in any later frame; events remaining in the same frame's
drained batch, however, are still processed. -/
theorem CandleBox.c4_no_frames_after_terminal (s : TaskState)
    (fs : List Frame) (h : s.running = false) : runFrames s fs = s := by
  cases fs with
  | nil => rfl
  | cons f fs => simp [runFrames, h]

theorem CandleBox.c4_no_frames_after_terminal_witness :
    runFrames { initState 0 with running := false } [⟨[], (0, 0), 0⟩]
      = { initState 0 with running := false } :=
  c4_no_frames_after_terminal _ _ rfl

/-- Claim C3, amended: on a drop for which no rule matches,
`incorrect_drops` is incremented if and only if the dropped object's final
rectangle is not fully contained in the inventory/staging region (the code
tests `inventory_rect.contains`, so a rectangle that merely overlaps the
region is still penalised). -/
theorem CandleBox.c3_incorrect_iff_not_contained (s : TaskState) (t : Int)
    (q : Int × Int) (k : Kind)
    (hcd : s.currently_dragged = some k)
    (h1 : ((s.get k).item_type == "box"
        && (s.get k).rect.colliderect wall_area_rect) = false)
    (h2 : ((s.get k).item_type == "tacks" && s.box.is_placed
        && (s.get k).rect.colliderect s.box.rect) = false)
    (h3 : ((s.get k).item_type == "candle" && s.box.state == (1 : Int)
        && (s.get k).rect.colliderect s.box.rect) = false) :
    (processUp s t (.up 1 q)).incorrect_drops
      = s.incorrect_drops
        + (if INVENTORY_RECT_GLOBAL.contains (s.get k).rect then 0 else 1) := by
  unfold processUp
  rw [hcd]
  dsimp only
  simp only [get_update_misc, h1, h2, h3, Bool.false_eq_true, if_false,
    apply_ite TaskState.incorrect_drops, set_incorrect_drops, ite_self]
  cases hin : INVENTORY_RECT_GLOBAL.contains (s.get k).rect <;> simp [hin]

theorem CandleBox.c3_incorrect_iff_not_contained_witness :
    (processUp { initState 0 with currently_dragged := some Kind.candle }
        0 (.up 1 (0, 0))).incorrect_drops
      = ({ initState 0 with currently_dragged := some Kind.candle} :
          TaskState).incorrect_drops
        + (if INVENTORY_RECT_GLOBAL.contains
              (({ initState 0 with currently_dragged := some Kind.candle} :
                TaskState).get Kind.candle).rect then 0 else 1) :=
  c3_incorrect_iff_not_contained _ 0 (0, 0) Kind.candle rfl
    (by decide) (by decide) (by decide)

/-- Claim C7: `handle_event` on a button-1 pointer-down (the spec's
`tryGrab`) succeeds and enters the dragging state exactly when the pointer
position lies inside the item's bounding rectangle, recording the capture
offset `rect.topleft - pointer`; `update` (the spec's `followPointer`) sets
the position to `pointer + offset` while dragging and is a no-op
otherwise. -/
theorem tryGrab_followPointer (it : DraggableItem) (p m : Int × Int) :
    (((it.handle_event (PEvent.down 1 p)).2 = true)
        ↔ it.rect.collidepoint p = true) ∧
    (it.rect.collidepoint p = true →
      (it.handle_event (PEvent.down 1 p)).1.dragging = true ∧
      (it.handle_event (PEvent.down 1 p)).1.offset
        = (it.rect.x - p.1, it.rect.y - p.2)) ∧
    (it.dragging = true →
      (it.update m).rect.topleft = (m.1 + it.offset.1, m.2 + it.offset.2)) ∧
    (it.dragging = false → it.update m = it) := by
  unfold DraggableItem.handle_event DraggableItem.update
  refine ⟨?_, ?_, ?_, ?_⟩
  · cases hcp : it.rect.collidepoint p <;> simp [hcp]
  · intro hcp
    simp [hcp]
  · intro hd
    simp [hd, Rect.topleft]
  · intro hd
    simp [hd]

theorem tryGrab_followPointer_witness :
    ((mkItem "w.png" (10, 10) (0, 0) "thing").handle_event
        (PEvent.down 1 (5, 5))).2 = true ∧
    ((mkItem "w.png" (10, 10) (0, 0) "thing").handle_event
        (PEvent.down 1 (5, 5))).1.dragging = true ∧
    ({ mkItem "w.png" (10, 10) (0, 0) "thing" with
        dragging := true, offset := (1, 2) }.update (100, 100)).rect.topleft
      = (101, 102) ∧
    (mkItem "w.png" (10, 10) (0, 0) "thing").update (100, 100)
      = mkItem "w.png" (10, 10) (0, 0) "thing" := by
  have h1 := tryGrab_followPointer (mkItem "w.png" (10, 10) (0, 0) "thing")
    (5, 5) (100, 100)
  have h2 := tryGrab_followPointer
    { mkItem "w.png" (10, 10) (0, 0) "thing" with
        dragging := true, offset := (1, 2) } (5, 5) (100, 100)
  refine ⟨h1.1.mpr (by decide), (h1.2.1 (by decide)).1, ?_, h1.2.2.2 rfl⟩
  rw [h2.2.2.1 rfl]
  decide

/-- Claim C6: the condition assigned in `main` is
`(participant seed + task index) % 2` (with `NUM_CONDITIONS = 2`), a pure
function of the seed and the position in the shuffled sequence, and over
the four task indices `0..3` of a session each condition is assigned
exactly twice. -/
theorem condition_assignment_balanced (seed : Nat) :
    (∀ i : Nat, task_condition seed i = (seed + i) % 2) ∧
    ((List.range 4).map (task_condition seed)).count 0 = 2 ∧
    ((List.range 4).map (task_condition seed)).count 1 = 2 := by
  refine ⟨fun i => rfl, ?_, ?_⟩ <;>
  · have hlist : (List.range 4).map (task_condition seed)
        = [seed % 2, (seed + 1) % 2, (seed + 2) % 2, (seed + 3) % 2] := by
      simp [List.range_succ, task_condition, NUM_CONDITIONS]
    rcases Nat.mod_two_eq_zero_or_one seed with h | h <;>
    · have e1 : (seed + 1) % 2 = 1 - seed % 2 := by omega
      have e2 : (seed + 2) % 2 = seed % 2 := by omega
      have e3 : (seed + 3) % 2 = 1 - seed % 2 := by omega
      rw [hlist, e1, e2, e3, h]
      decide

/-- Claim C8: `change_visual` (the spec's `retarget`) keeps the bounding
rectangle's center exactly (hence within one pixel) while the rectangle's
width and height become the new size. -/
theorem change_visual_preserves_center (it : DraggableItem) (fn : String)
    (ns : Int × Int) (nt : Option String) :
    (it.change_visual fn ns nt).rect.center = it.rect.center ∧
    (it.change_visual fn ns nt).rect.w = ns.1 ∧
    (it.change_visual fn ns nt).rect.h = ns.2 := by
  refine ⟨?_, rfl, rfl⟩
  show ((it.rect.center.1 - ns.1 / 2) + ns.1 / 2,
        (it.rect.center.2 - ns.2 / 2) + ns.2 / 2) = it.rect.center
  rw [Int.sub_add_cancel, Int.sub_add_cancel]

/-- Claim C10: in the hanger-wire task, an unsuccessful drop of the
transformed wire (no rule matched, which with the wire in hand requires
the attach rule to fail and the ring to be unattached) behaves as the
claim states: if the wire's rectangle is not fully contained in the gap
area it is left exactly where it was dropped, `incorrect_drops` is
unchanged and a `PLACE(Wire at …)` entry is appended to the action log;
if its rectangle is fully contained in the gap area, `incorrect_drops` is
incremented and the wire is reset to its initial position. -/
theorem HangerWire.c10_unsuccessful_wire_drop (s : HState) (t : Int)
    (q : Int × Int)
    (hcd : s.currently_dragged = some HKind.hanger)
    (hty : s.hangerItem.item_type = "wire")
    (hr2 : (s.hangerItem.rect.colliderect s.ring.rect
        && gap_area_rect.contains s.ring.rect) = false)
    (hatt : s.ring_is_attached = false)
    (hdrag : s.hangerItem.dragging = true) :
    (gap_area_rect.contains s.hangerItem.rect = false →
      processUp s t (.up 1 q) = Except.ok
        { s with
            action_log := s.action_log ++
              [logEntry t
                 ("DRAG_END(wire) at " ++ p2s s.hangerItem.rect.center),
               logEntry t
                 ("PLACE(Wire at " ++ p2s s.hangerItem.rect.center ++ ")")]
            action_count := s.action_count + 1
            hangerItem := { s.hangerItem with dragging := false }
            currently_dragged := none }) ∧
    (gap_area_rect.contains s.hangerItem.rect = true →
      processUp s t (.up 1 q) = Except.ok
        { s with
            action_log := s.action_log ++
              [logEntry t
                 ("DRAG_END(wire) at " ++ p2s s.hangerItem.rect.center)]
            action_count := s.action_count + 1
            incorrect_drops := s.incorrect_drops + 1
            hangerItem := { s.hangerItem.reset_position with dragging := false }
            currently_dragged := none }) := by
  constructor <;> intro hg
  · unfold processUp
    rw [hcd]
    dsimp only
    simp [hty, hr2, hatt, hdrag, hg, finishDrag, HState.set, HState.get,
      DraggableItem.handle_event, logEntry, List.append_assoc]
  · have hinv : INVENTORY_RECT_GLOBAL.contains s.hangerItem.rect = false := by
      simp only [Rect.contains, gap_area_rect, INVENTORY_RECT_GLOBAL,
        SCREEN_WIDTH, SCREEN_HEIGHT] at hg ⊢
      simp only [Bool.and_eq_true, decide_eq_true_eq] at hg
      simp only [Bool.and_eq_false_iff, decide_eq_false_iff_not]
      omega
    unfold processUp
    rw [hcd]
    dsimp only
    simp [hty, hr2, hatt, hdrag, hg, hinv, finishDrag, HState.set, HState.get,
      DraggableItem.handle_event, DraggableItem.reset_position, logEntry,
      List.append_assoc]

theorem HangerWire.c10_unsuccessful_wire_drop_witness :
    processUp wireDropState 0 (PEvent.up 1 (0, 0))
      = Except.ok
        { wireDropState with
            action_log := [logEntry 0 "DRAG_END(wire) at (105, 150)",
                           logEntry 0 "PLACE(Wire at (105, 150))"]
            action_count := 1
            hangerItem := { wireDropState.hangerItem with dragging := false }
            currently_dragged := none } := by
  have h := (c10_unsuccessful_wire_drop wireDropState 0 (0, 0) rfl rfl
    (by decide) rfl rfl).1 (by decide)
  rw [h]
  rfl

/-- Claim C5: Scenario A of the candle-box task, under either condition.
Whenever the box is dropped so that its rectangle overlaps the wall zone,
it becomes placed (`is_placed = true`, flag `BoxOnWall`); then dropping
the tacks so that they overlap the placed box sets the box's auxiliary
state to 1, removes the tacks from the draggable set and the sprite group,
and raises `BoxTacked`; then dropping the candle so that it overlaps the
tacked box makes the outcome Solved, with `BoxOnWall` and `BoxTacked`
still true in the finalized result.  The drop rectangles are the dragged
items' rectangles after following the mouse positions `m1`, `m2`, `m3`
(grab offset `(-5, -5)` in each phase). -/
theorem CandleBox.c5_scenario_a (c : Nat) (hc : c = 0 ∨ c = 1) (m1 m2 m3 : Int × Int)
    (hb : Rect.colliderect ⟨m1.1 - 5, m1.2 - 5, 80, 80⟩ wall_area_rect = true)
    (ht : Rect.colliderect ⟨m2.1 - 5, m2.2 - 5, 40, 40⟩
        (runTask c ((c5frames c m1 m2 m3).take 2)).box.rect = true)
    (hcan : Rect.colliderect ⟨m3.1 - 5, m3.2 - 5, 30, 100⟩
        (runTask c ((c5frames c m1 m2 m3).take 4)).box.rect = true) :
    ((runTask c ((c5frames c m1 m2 m3).take 2)).box.is_placed = true ∧
     (runTask c ((c5frames c m1 m2 m3).take 2)).box_on_wall_flag = true) ∧
    ((runTask c ((c5frames c m1 m2 m3).take 4)).box.state = 1 ∧
     (runTask c ((c5frames c m1 m2 m3).take 4)).box_tacked_flag = true ∧
     (runTask c ((c5frames c m1 m2 m3).take 4)).draggables = [Kind.candle, Kind.box] ∧
     (runTask c ((c5frames c m1 m2 m3).take 4)).sprites = [Kind.candle, Kind.box]) ∧
    ((runTask c (c5frames c m1 m2 m3)).outcome = "Solved" ∧
     (finalize (runTask c (c5frames c m1 m2 m3))).BoxOnWall = true ∧
     (finalize (runTask c (c5frames c m1 m2 m3))).BoxTacked = true) := by
  have e1 := c5_step1 c hc m1
  have e2 := c5_step2 c hc m1 hb
  have r2 : runTask c ((c5frames c m1 m2 m3).take 2) = c5S2 c m1 := by
    show runFrames (initState c)
      [⟨[.down 1 (465, 590)], m1, 1000⟩, ⟨[.up 1 (465, 590)], m1, 2000⟩] = c5S2 c m1
    rw [runFrames_cons _ _ _ rfl, e1, runFrames_cons _ _ _ rfl, e2]
    rfl
  have ht2 : Rect.colliderect ⟨m2.1 - 5, m2.2 - 5, 40, 40⟩ ⟨460, 400, 80, 80⟩ = true := by
    rw [r2] at ht
    exact ht
  have e3 := c5_step3 c hc m1 m2
  have e4 := c5_step4 c hc m1 m2 ht2
  have r4 : runTask c ((c5frames c m1 m2 m3).take 4) = c5S4 c m1 m2 := by
    show runFrames (initState c)
      [⟨[.down 1 (465, 590)], m1, 1000⟩, ⟨[.up 1 (465, 590)], m1, 2000⟩,
       ⟨[.down 1 (c5tacksPoint c)], m2, 3000⟩, ⟨[.up 1 (c5tacksPoint c)], m2, 4000⟩]
      = c5S4 c m1 m2
    rw [runFrames_cons _ _ _ rfl, e1, runFrames_cons _ _ _ rfl, e2,
        runFrames_cons _ _ _ rfl, e3, runFrames_cons _ _ _ rfl, e4]
    rfl
  have hcan2 : Rect.colliderect ⟨m3.1 - 5, m3.2 - 5, 30, 100⟩ ⟨460, 400, 80, 80⟩ = true := by
    rw [r4] at hcan
    exact hcan
  have e5 := c5_step5 c hc m1 m2 m3
  have e6 := c5_step6 c hc m1 m2 m3 hcan2
  have r6 : runTask c (c5frames c m1 m2 m3) = c5S6 c m1 m2 m3 := by
    show runFrames (initState c)
      [⟨[.down 1 (465, 590)], m1, 1000⟩, ⟨[.up 1 (465, 590)], m1, 2000⟩,
       ⟨[.down 1 (c5tacksPoint c)], m2, 3000⟩, ⟨[.up 1 (c5tacksPoint c)], m2, 4000⟩,
       ⟨[.down 1 (280, 590)], m3, 5000⟩, ⟨[.up 1 (280, 590)], m3, 6000⟩]
      = c5S6 c m1 m2 m3
    rw [runFrames_cons _ _ _ rfl, e1, runFrames_cons _ _ _ rfl, e2,
        runFrames_cons _ _ _ rfl, e3, runFrames_cons _ _ _ rfl, e4,
        runFrames_cons _ _ _ rfl, e5, runFrames_cons _ _ _ rfl, e6]
    rfl
  rw [r2, r4, r6]
  exact ⟨⟨rfl, rfl⟩, ⟨rfl, rfl, rfl, rfl⟩, ⟨rfl, rfl, rfl⟩⟩

theorem CandleBox.c5_scenario_a_witness :
    (runTask 0 (c5frames 0 (505, 425) (505, 425) (505, 415))).outcome = "Solved" ∧
    (runTask 1 (c5frames 1 (505, 425) (505, 425) (505, 415))).outcome = "Solved" :=
  ⟨(c5_scenario_a 0 (Or.inl rfl) (505, 425) (505, 425) (505, 415)
      (by decide) (by decide) (by decide)).2.2.1,
   (c5_scenario_a 1 (Or.inr rfl) (505, 425) (505, 425) (505, 415)
      (by decide) (by decide) (by decide)).2.2.1⟩

/-- Claim C9: `reset_position` (the spec's `resetToInitial`) restores the
initial position and clears `is_placed` and the auxiliary `state`, and it
is idempotent: a second call leaves the item (position included) exactly as
after the first. -/
theorem reset_position_idempotent (it : DraggableItem) :
    it.reset_position.reset_position = it.reset_position ∧
    it.reset_position.rect.topleft = it.initial_pos ∧
    it.reset_position.current_pos = it.initial_pos ∧
    it.reset_position.is_placed = false ∧
    it.reset_position.state = 0 := by
  exact ⟨rfl, rfl, rfl, rfl, rfl⟩

end IBC
